import Mathlib

/-!
Verification of the ai-coach engineering core against its specification.

The development shallowly embeds the Python modules that the checked
properties live in:

* `coach/utils.py` (`clamp`),
* `coach/model/params.py` (serve-mix / rally-style simplex records with
  their pydantic validators, `effective_probabilities`, `with_adjustments`,
  `to_template_context`),
* `coach/pat/parser.py` (`parse_probability` and its helpers),
* `coach/pat/mock_pat.py` (`mock_probability`),
* `coach/pat/runner.py` (`run_pat` failure classification and the artifact
  write / raise discipline),
* `coach/service.py` (the strategy candidate loop and budget truncation),
* `coach/data/adapters/local_csv.py` (the Laplace / Dirichlet smoothing
  arithmetic of the estimator).

Python floats are modelled by exact rationals (`ℚ`); the transcendental
logistic used by the mock engine is modelled over `ℝ`.  Text processing is
modelled on `List Char`, with fuel arguments standing in for the regex
left-to-right scan of the regex engine (the fuel is always the text length, which is an
upper bound on the number of scan steps, so no behaviour is cut off).
Functions that raise in Python return `Option` / `Except` here; pydantic
construction that can raise a validation error is modelled by smart
constructors returning `Option`.
-/

/-! ## Character and text helpers (modelling Python str primitives) -/

/-- Python whitespace test used by `str.strip`, `str.split` and the regex
class `\s` (ASCII range, which is all the texts of the repository use). -/
def isPySpace (c : Char) : Bool :=
  c = ' ' || c = '\t' || c = '\n' || c = '\r' || c = '\x0b' || c = '\x0c'

/-- Python `str.strip()` on the underlying character list. -/
def stripChars (cs : List Char) : List Char :=
  ((cs.dropWhile isPySpace).reverse.dropWhile isPySpace).reverse

/-- Python `str.strip()`. -/
def stripWS (s : String) : String :=
  ⟨stripChars s.data⟩

/-- Lower-casing a character list (Python `str.lower()` on ASCII). -/
def lowerChars (cs : List Char) : List Char :=
  cs.map Char.toLower

/-- Python `needle in haystack` on character lists. -/
def listContains (needle : List Char) : List Char → Bool
  | [] => needle.isEmpty
  | c :: rest => needle.isPrefixOf (c :: rest) || listContains needle rest

/-- Python `text.split("\n")` (also the line split used for
`f"{stdout}\n{stderr}".splitlines()`): every `\n` separates lines, and a
trailing separator yields a final empty line. -/
def splitOnNewline : List Char → List (List Char)
  | [] => [[]]
  | c :: rest =>
    if c = '\n' then [] :: splitOnNewline rest
    else
      match splitOnNewline rest with
      | [] => [[c]]
      | l :: ls => (c :: l) :: ls

/-- One step of Python `str.split()` (no separator): drop leading
whitespace, take the next word.  Fuel bounds the scan by the text length. -/
def splitWSAux : Nat → List Char → List (List Char)
  | 0, _ => []
  | fuel + 1, cs =>
    let cs' := cs.dropWhile isPySpace
    match cs' with
    | [] => []
    | c :: rest =>
      ((c :: rest).takeWhile (fun ch => !isPySpace ch))
        :: splitWSAux fuel ((c :: rest).dropWhile (fun ch => !isPySpace ch))

/-- Python `str.split()` with no arguments. -/
def splitWSChars (cs : List Char) : List (List Char) :=
  splitWSAux cs.length cs

/-! ## coach/utils.py -/

/-- `utils.clamp(value, low=0.01, high=0.99) = max(low, min(high, value))`. -/
def clamp (value : ℚ) (low : ℚ := 0.01) (high : ℚ := 0.99) : ℚ :=
  max low (min high value)

/-! ## coach/model/params.py — the validated parameter model -/

/-- `params.ServeMix`: the serve-mix simplex record. -/
structure ServeMix where
  short : ℚ
  flick : ℚ
deriving DecidableEq

/-- The pydantic validation of `ServeMix`: both per-field `Field(ge=0, le=1)`
bounds and the `validate_sum` model validator (`abs(total - 1) <= 1e-6`). -/
@[reducible] def ServeMix.validated (m : ServeMix) : Prop :=
  0 ≤ m.short ∧ m.short ≤ 1 ∧ 0 ≤ m.flick ∧ m.flick ≤ 1 ∧
    |m.short + m.flick - 1| ≤ 1e-6

/-- Constructing a `ServeMix` through pydantic: returns `none` where Python
raises a validation error. -/
def mkServeMix (short flick : ℚ) : Option ServeMix :=
  if ServeMix.validated ⟨short, flick⟩ then some ⟨short, flick⟩ else none

/-- `params.RallyStyleMix`: the rally-style simplex record. -/
structure RallyStyleMix where
  attack : ℚ
  neutral : ℚ
  safe : ℚ
deriving DecidableEq

/-- The pydantic validation of `RallyStyleMix`: `Field(ge=0, le=1)` on the
three components plus `validate_sum` (`abs(total - 1) <= 1e-6`). -/
@[reducible] def RallyStyleMix.validated (m : RallyStyleMix) : Prop :=
  0 ≤ m.attack ∧ m.attack ≤ 1 ∧ 0 ≤ m.neutral ∧ m.neutral ≤ 1 ∧
    0 ≤ m.safe ∧ m.safe ≤ 1 ∧ |m.attack + m.neutral + m.safe - 1| ≤ 1e-6

/-- Constructing a `RallyStyleMix` through pydantic. -/
def mkRallyStyleMix (attack neutral safe : ℚ) : Option RallyStyleMix :=
  if RallyStyleMix.validated ⟨attack, neutral, safe⟩ then
    some ⟨attack, neutral, safe⟩
  else none

/-- `params.InfluenceWeights`. -/
structure InfluenceWeights where
  w_short : ℚ
  w_attack : ℚ
  w_safe : ℚ
deriving DecidableEq

/-- `InfluenceWeights` field bounds: `Field(gt=0, le=0.3)` on each weight. -/
@[reducible] def InfluenceWeights.validated (w : InfluenceWeights) : Prop :=
  0 < w.w_short ∧ w.w_short ≤ 0.3 ∧ 0 < w.w_attack ∧ w.w_attack ≤ 0.3 ∧
    0 < w.w_safe ∧ w.w_safe ≤ 0.3

/-- `params.PlayerParams`. -/
structure PlayerParams where
  player_id : String
  name : String
  base_srv_win : ℚ
  base_rcv_win : ℚ
  serve_mix : ServeMix
  rally_style : RallyStyleMix
  sample_matches : ℤ := 0
deriving DecidableEq

/-- `PlayerParams` validation: base rates in `[0.01, 0.99]`, non-empty
identity strings, non-negative sample count, and validated mixes. -/
@[reducible] def PlayerParams.validated (p : PlayerParams) : Prop :=
  stripWS p.player_id ≠ "" ∧ stripWS p.name ≠ "" ∧
    0.01 ≤ p.base_srv_win ∧ p.base_srv_win ≤ 0.99 ∧
    0.01 ≤ p.base_rcv_win ∧ p.base_rcv_win ≤ 0.99 ∧
    p.serve_mix.validated ∧ p.rally_style.validated ∧ 0 ≤ p.sample_matches

/-- `params.MatchupParams` (game-format constants included). -/
structure MatchupParams where
  player_a : PlayerParams
  player_b : PlayerParams
  weights : InfluenceWeights
  target : ℤ := 21
  cap : ℤ := 30
  best_of : ℤ := 3
deriving DecidableEq

/-- `MatchupParams` validation: field bounds plus `validate_game_constraints`
(`best_of` odd, `cap >= target`). -/
@[reducible] def MatchupParams.validated (m : MatchupParams) : Prop :=
  m.player_a.validated ∧ m.player_b.validated ∧ m.weights.validated ∧
    11 ≤ m.target ∧ m.target ≤ 30 ∧ 21 ≤ m.cap ∧ m.cap ≤ 50 ∧
    1 ≤ m.best_of ∧ m.best_of ≤ 7 ∧ ¬ (2 ∣ m.best_of) ∧ m.target ≤ m.cap

/-- `MatchupParams._style_delta`. -/
def MatchupParams.styleDelta (m : MatchupParams) : ℚ :=
  m.weights.w_short * (m.player_a.serve_mix.short - m.player_b.serve_mix.short)
    + m.weights.w_attack * (m.player_a.rally_style.attack - m.player_b.rally_style.attack)
    - m.weights.w_safe * (m.player_b.rally_style.safe - m.player_a.rally_style.safe)

/-- The four derived probabilities returned by `effective_probabilities`. -/
structure EffectiveProbs where
  pA_srv_win : ℚ
  pA_rcv_win : ℚ
  pB_srv_win : ℚ
  pB_rcv_win : ℚ
deriving DecidableEq

/-- `MatchupParams.effective_probabilities`. -/
def MatchupParams.effectiveProbabilities (m : MatchupParams) : EffectiveProbs :=
  let delta := m.styleDelta
  let pASrv := clamp (m.player_a.base_srv_win + delta)
  let pARcv := clamp (m.player_a.base_rcv_win + delta)
  { pA_srv_win := pASrv
    pA_rcv_win := pARcv
    pB_srv_win := clamp (1 - pARcv)
    pB_rcv_win := clamp (1 - pASrv) }

/-- `MatchupParams.with_adjustments`: moves the serve mix of player A and rally
style; the constructed mixes pass through pydantic validation, so the result
is `none` exactly where the Python call raises a validation error. -/
def MatchupParams.withAdjustments (m : MatchupParams)
    (serve_short_delta : ℚ := 0) (attack_delta : ℚ := 0) : Option MatchupParams :=
  let a := m.player_a
  let short := clamp (a.serve_mix.short + serve_short_delta) 0.01 0.99
  (mkServeMix short (1 - short)).bind fun serveMix =>
    let attack := clamp (a.rally_style.attack + attack_delta) 0.01 0.98
    let remainOld := max (a.rally_style.neutral + a.rally_style.safe) 1e-6
    let neutral := a.rally_style.neutral / remainOld * (1 - attack)
    let safe := a.rally_style.safe / remainOld * (1 - attack)
    (mkRallyStyleMix attack neutral safe).map fun rallyStyle =>
      { m with player_a := { a with serve_mix := serveMix, rally_style := rallyStyle } }

/-- `MatchupParams.l1_change_from`. -/
def MatchupParams.l1ChangeFrom (m baseline : MatchupParams) : ℚ :=
  |m.player_a.serve_mix.short - baseline.player_a.serve_mix.short|
    + |m.player_a.serve_mix.flick - baseline.player_a.serve_mix.flick|
    + |m.player_a.rally_style.attack - baseline.player_a.rally_style.attack|
    + |m.player_a.rally_style.neutral - baseline.player_a.rally_style.neutral|
    + |m.player_a.rally_style.safe - baseline.player_a.rally_style.safe|

/-- Python `round` (bankers rounding: ties go to the even integer), as used
in `to_template_context` via `int(round(...))`. -/
def pyRound (q : ℚ) : ℤ :=
  let f := ⌊q⌋
  let r := q - f
  if r < 1 / 2 then f
  else if 1 / 2 < r then f + 1
  else if 2 ∣ f then f else f + 1

/-- The numeric part of the context built by
`MatchupParams.to_template_context` (the string-formatted probability fields
are renderings of the same rationals and carry no extra information). -/
structure TemplateContext where
  target : ℤ
  cap : ℤ
  best_of : ℤ
  games_to_win : ℤ
  pA_srv_win_w : ℤ
  pA_srv_lose_w : ℤ
  pA_rcv_win_w : ℤ
  pA_rcv_lose_w : ℤ
deriving DecidableEq

/-- `MatchupParams.to_template_context`, numeric fields. -/
def MatchupParams.toTemplateContext (m : MatchupParams) : TemplateContext :=
  let eff := m.effectiveProbabilities
  let scale : ℤ := 10000
  let pASrvW := pyRound (eff.pA_srv_win * 10000)
  let pARcvW := pyRound (eff.pA_rcv_win * 10000)
  { target := m.target
    cap := m.cap
    best_of := m.best_of
    games_to_win := m.best_of / 2 + 1
    pA_srv_win_w := pASrvW
    pA_srv_lose_w := scale - pASrvW
    pA_rcv_win_w := pARcvW
    pA_rcv_lose_w := scale - pARcvW }

/-! ## coach/pat/parser.py — probability extraction from engine output

The regex `(?is)(?:prob(?:ability)?|with\s+prob)` is embedded directly: at
each position the ordered alternation first tries `prob` with the greedy
optional `ability`, then `with` + whitespace + `prob`; `finditer` resumes
after each match.  The number regex
`[+-]?(?:\d*\.\d+|\d+)(?:[eE][+-]?\d+)?` is embedded the same way. -/

/-- Case-insensitively drop a (lower-case) literal pattern from the front of
the text; `none` when the text does not start with it. -/
def dropLowerPat : List Char → List Char → Option (List Char)
  | [], cs => some cs
  | _ :: _, [] => none
  | p :: ps, c :: cs => if c.toLower = p then dropLowerPat ps cs else none

/-- One match attempt of the probability-context marker at the head of the
text, returning the text after the match.  Mirrors the regex alternation
order: `probability`, then `prob`, then `with` `\s+` `prob`. -/
def matchProbMarker (cs : List Char) : Option (List Char) :=
  match dropLowerPat "probability".data cs with
  | some rest => some rest
  | none =>
    match dropLowerPat "prob".data cs with
    | some rest => some rest
    | none =>
      match dropLowerPat "with".data cs with
      | some rest =>
        if (rest.takeWhile isPySpace).isEmpty then none
        else dropLowerPat "prob".data (rest.dropWhile isPySpace)
      | none => none

/-- `finditer` of the context marker: the list of text suffixes that start
right after each (non-overlapping, leftmost) marker match.  Fuel is the text
length, an upper bound on the scan steps since every match consumes at least
the four characters of `prob`. -/
def probMarkerSuffixesAux : Nat → List Char → List (List Char)
  | 0, _ => []
  | _ + 1, [] => []
  | fuel + 1, c :: rest =>
    match matchProbMarker (c :: rest) with
    | some suffix => suffix :: probMarkerSuffixesAux fuel suffix
    | none => probMarkerSuffixesAux fuel rest

/-- All suffixes following a probability-context marker, in text order. -/
def probMarkerSuffixes (cs : List Char) : List (List Char) :=
  probMarkerSuffixesAux cs.length cs

/-- Digit run at the head of the text: the digits and the remaining text. -/
def takeDigits (cs : List Char) : List Char × List Char :=
  (cs.takeWhile Char.isDigit, cs.dropWhile Char.isDigit)

/-- Value of a digit string. -/
def digitsToNat (ds : List Char) : Nat :=
  ds.foldl (fun n c => 10 * n + (c.toNat - '0'.toNat)) 0

/-- Match the unsigned mantissa `\d*\.\d+|\d+` at the head of the text. -/
def matchMantissa (cs : List Char) : Option (ℚ × List Char) :=
  let (intDigits, rest1) := takeDigits cs
  match rest1 with
  | '.' :: rest2 =>
    let (fracDigits, rest3) := takeDigits rest2
    if fracDigits.isEmpty then
      if intDigits.isEmpty then none
      else some ((digitsToNat intDigits : ℚ), rest1)
    else
      some ((digitsToNat intDigits : ℚ)
        + (digitsToNat fracDigits : ℚ) / ((10 : ℚ) ^ fracDigits.length), rest3)
  | _ => if intDigits.isEmpty then none else some ((digitsToNat intDigits : ℚ), rest1)

/-- Match the optional exponent `(?:[eE][+-]?\d+)?` at the head of the text,
returning the exponent and the remaining text when it matches. -/
def matchExponent (cs : List Char) : Option (ℤ × List Char) :=
  match cs with
  | c :: rest =>
    if c = 'e' ∨ c = 'E' then
      match rest with
      | '+' :: rest2 =>
        let (ds, rest3) := takeDigits rest2
        if ds.isEmpty then none else some ((digitsToNat ds : ℤ), rest3)
      | '-' :: rest2 =>
        let (ds, rest3) := takeDigits rest2
        if ds.isEmpty then none else some (-(digitsToNat ds : ℤ), rest3)
      | _ =>
        let (ds, rest3) := takeDigits rest
        if ds.isEmpty then none else some ((digitsToNat ds : ℤ), rest3)
    else none
  | [] => none

/-- Match the full number token `[+-]?(?:\d*\.\d+|\d+)(?:[eE][+-]?\d+)?` at
the head of the text, returning its value and the remaining text. -/
def matchNumber (cs : List Char) : Option (ℚ × List Char) :=
  let signed : Option (ℚ × List Char) :=
    match cs with
    | '+' :: rest => matchMantissa rest
    | '-' :: rest => (matchMantissa rest).map fun (v, r) => (-v, r)
    | _ => matchMantissa cs
  signed.map fun (v, rest) =>
    match matchExponent rest with
    | some (e, rest2) => (v * (10 : ℚ) ^ e, rest2)
    | none => (v, rest)

/-- `parser._extract_probabilities`: every number token in the segment whose
value lies in `[0, 1]`, in order.  Fuel is the segment length (each number
match consumes at least one character). -/
def extractProbabilitiesAux : Nat → List Char → List ℚ
  | 0, _ => []
  | _ + 1, [] => []
  | fuel + 1, c :: rest =>
    match matchNumber (c :: rest) with
    | some (v, rest2) =>
      if 0 ≤ v ∧ v ≤ 1 then v :: extractProbabilitiesAux fuel rest2
      else extractProbabilitiesAux fuel rest2
    | none => extractProbabilitiesAux fuel rest

/-- `parser._extract_probabilities` on a segment. -/
def extractProbabilities (cs : List Char) : List ℚ :=
  extractProbabilitiesAux cs.length cs

/-- The per-marker value harvest of `parse_probability`: numbers on the rest
of the marker line first, then the 40-character lookahead window as a
fallback when the line yields nothing. -/
def segmentValues (suffix : List Char) : List ℚ :=
  let lineValues := extractProbabilities (suffix.takeWhile (fun c => c ≠ '\n'))
  if lineValues.isEmpty then extractProbabilities (suffix.take 40) else lineValues

/-- All in-range values found after context markers, in text order. -/
def collectProbabilityValues (cs : List Char) : List ℚ :=
  ((probMarkerSuffixes cs).map segmentValues).flatten

/-- `parser._excerpt`: whitespace-compacted text, truncated to 180
characters with a `...` tail. -/
def pyExcerpt (text : String) (maxLen : Nat := 180) : String :=
  let compact : List Char := List.intercalate [' '] (splitWSChars text.data)
  if compact.length ≤ maxLen then ⟨compact⟩
  else ⟨compact.take (maxLen - 3) ++ "...".data⟩

/-- `parser.parse_probability`: the last in-range value found after a
context marker, or the descriptive error (Python raises `ValueError`). -/
def parseProbability (text : String) : Except String ℚ :=
  match (collectProbabilityValues text.data).getLast? with
  | some v => .ok v
  | none => .error ("Could not parse probability from PAT output. Excerpt: "
      ++ pyExcerpt text)

/-- Decidable equality on parse results (used to evaluate the parser on
concrete engine outputs). -/
instance : DecidableEq (Except String ℚ) := fun a b =>
  match a, b with
  | .ok x, .ok y => decidable_of_iff (x = y) (by simp)
  | .error x, .error y => decidable_of_iff (x = y) (by simp)
  | .ok _, .error _ => isFalse (by simp)
  | .error _, .ok _ => isFalse (by simp)

/-! ## coach/pat/mock_pat.py — the deterministic mock engine -/

/-- The eight numeric parameters `mock_probability` reads from the rendered
model text (with their Python defaults). -/
structure MockParams where
  pA_srv_win : ℝ := 0.5
  pA_rcv_win : ℝ := 0.5
  serve_mix_A_short : ℝ := 0.5
  serve_mix_B_short : ℝ := 0.5
  rally_style_A_attack : ℝ := 0.33
  rally_style_B_attack : ℝ := 0.33
  rally_style_A_safe : ℝ := 0.33
  rally_style_B_safe : ℝ := 0.33

/-- `mock_pat._logistic`. -/
noncomputable def logistic (value : ℝ) : ℝ :=
  1 / (1 + Real.exp (-value))

/-- `mock_pat.mock_probability`: fixed logistic combination of the
deviations of the serve/receive probabilities from 0.5 and the three style
edges, clamped to `[0.01, 0.99]`. -/
noncomputable def mockProbability (p : MockParams) : ℝ :=
  let serveEdge := p.serve_mix_A_short - p.serve_mix_B_short
  let attackEdge := p.rally_style_A_attack - p.rally_style_B_attack
  let safeEdge := p.rally_style_B_safe - p.rally_style_A_safe
  let linear := 2.8 * (p.pA_srv_win - 0.5) + 2.2 * (p.pA_rcv_win - 0.5)
    + 0.7 * serveEdge + 0.9 * attackEdge - 0.6 * safeEdge
  max 0.01 (min 0.99 (logistic linear))

/-! ## coach/pat/runner.py — failure classification and artifacts -/

/-- `runner._extract_pat_model_error` signal substrings. -/
def patErrorSignals : List String :=
  ["parsing error:", "runtime exception occurred:", "error occurred:",
   "invalid file name:", "invalid folder name:", "invalid arguments."]

/-- The line scan of `_extract_pat_model_error`: first stripped non-empty
line whose lower-casing holds one of the signal substrings. -/
def findErrorSignalLine : List (List Char) → Option String
  | [] => none
  | l :: rest =>
    let line := stripChars l
    if line.isEmpty then findErrorSignalLine rest
    else if patErrorSignals.any (fun tok => listContains tok.data (lowerChars line)) then
      some ⟨line⟩
    else findErrorSignalLine rest

/-- `runner._extract_pat_model_error(stdout, stderr)`: scans the lines of
`f"{stdout}\n{stderr}"`. -/
def extractPatModelError (stdout stderr : String) : Option String :=
  findErrorSignalLine (splitOnNewline (stdout.data ++ '\n' :: stderr.data))

/-- One attempt of the engine process as `_run_pat_command` reports it. -/
structure ExecOutcome where
  returncode : ℤ
  stdout : String
  stderr : String
deriving DecidableEq

/-- What the post-execution block of `run_pat` derives from the selected
(last) attempt and the output file. -/
structure RunClassification where
  ok : Bool
  probability : Option ℚ
  modelError : Option String
deriving DecidableEq

/-- The failure-classification block of `run_pat` (after the attempts ran):
`outFile` is `none` when `out_path` does not exist and `some text` when it
exists with content `text` (an unreadable file is folded into `some ""`,
exactly as the Python `except` around `read_pat_output` does). -/
def classifyRun (selected : ExecOutcome) (outFile : Option String) : RunClassification :=
  let modelError0 := extractPatModelError selected.stdout selected.stderr
  let parsed : Option ℚ × Option String :=
    match outFile with
    | some text =>
      if stripWS text = "" then
        (none, some (modelError0.getD "PAT produced an empty output file."))
      else
        match parseProbability text with
        | .ok v => (some v, modelError0)
        | .error msg => (none, some (modelError0.getD msg))
    | none =>
      (none,
        if selected.returncode = 0 then
          some (modelError0.getD "PAT did not produce the expected output file.")
        else modelError0)
  { ok := selected.returncode == 0 && outFile.isSome
      && parsed.2.isNone && parsed.1.isSome
    probability := parsed.1
    modelError := parsed.2 }

/-- The files `run_pat` writes into the run directory. -/
inductive Artifact
  | patOutFile
  | stdoutFile
  | stderrFile
  | patRunJson
  | summaryJson
  | attemptStdout (idx : Nat)
  | attemptStderr (idx : Nat)
deriving DecidableEq

/-- How `PAT_CONSOLE_PATH` resolves for a real-mode call: unset, pointing at
a non-existent path, a directory without a recognizable console binary, or a
usable executable file. -/
inductive PatPathState
  | notConfigured
  | missing
  | directory
  | executable
deriving DecidableEq

/-- What happened once `run_pat` invoked the subprocess layer:
`completed` carries the primary attempt, the optional compatibility-fallback
attempt (the Mono shim retry), and the output-file state; `startFailure` is
the `FileNotFoundError` path (command could not be started); `timedOut` is
`subprocess.TimeoutExpired` with the partial output it captured. -/
inductive RealExec
  | completed (primary : ExecOutcome) (fallback : Option ExecOutcome)
      (outFile : Option String)
  | startFailure
  | timedOut (partStdout partStderr : String)

/-- One invocation of `run_pat` as the caller sees it: a returned payload
(`ok`, parsed probability) or a raised exception. -/
inductive RunPatOutcome
  | returned (ok : Bool) (probability : Option ℚ)
  | raised (msg : String)
deriving DecidableEq

/-- Whether the invocation raised. -/
def RunPatOutcome.isRaisedB : RunPatOutcome → Bool
  | .raised _ => true
  | _ => false

/-- The observable effect of one `run_pat` call: the run-directory files it
wrote, in order, and how it ended. -/
structure RunPatTrace where
  writes : List Artifact
  outcome : RunPatOutcome

/-- The inputs that decide a `run_pat` trace: mock mode (the mock engine
always succeeds, with the given probability), an invalid mode string, or
real mode with the resolved console-path state and the execution result. -/
inductive RunPatInput
  | mock (probability : ℚ)
  | invalidMode
  | real (path : PatPathState) (exec : RealExec)

/-- Whether the input is one of the configuration / engine-unavailable
cases that `run_pat` rejects before executing anything. -/
def RunPatInput.isEngineConfigError : RunPatInput → Bool
  | .invalidMode => true
  | .real .notConfigured _ => true
  | .real .missing _ => true
  | .real .directory _ => true
  | _ => false

/-- The attempt-log artifacts `_write_attempt_logs` produces. -/
def attemptArtifacts (fallback : Option ExecOutcome) : List Artifact :=
  match fallback with
  | none => [.attemptStdout 1, .attemptStderr 1]
  | some _ => [.attemptStdout 1, .attemptStderr 1, .attemptStdout 2, .attemptStderr 2]

/-- `runner.run_pat` as a trace of writes plus an outcome, following the
source path by path: the mock branch writes the synthetic output file and
all four records and returns success; an invalid mode raises `ValueError`;
the three engine-unavailable checks raise `RuntimeError` before anything is
written; the `FileNotFoundError` and `TimeoutExpired` handlers write all
four records and return a failure payload; a completed execution writes the
attempt logs and all four records and returns the classification of the
last attempt. -/
def runPatModel : RunPatInput → RunPatTrace
  | .mock p =>
    { writes := [.patOutFile, .stdoutFile, .stderrFile, .patRunJson, .summaryJson]
      outcome := .returned true (some p) }
  | .invalidMode =>
    { writes := [], outcome := .raised "mode must be real or mock" }
  | .real .notConfigured _ =>
    { writes := [], outcome := .raised "PAT real mode requires PAT_CONSOLE_PATH." }
  | .real .missing _ =>
    { writes := [], outcome := .raised "PAT Console not found at the given path." }
  | .real .directory _ =>
    { writes := []
      outcome := .raised "PAT_CONSOLE_PATH points to a directory without a console executable." }
  | .real .executable .startFailure =>
    { writes := [.stdoutFile, .stderrFile, .patRunJson, .summaryJson]
      outcome := .returned false none }
  | .real .executable (.timedOut _ _) =>
    { writes := [.stdoutFile, .stderrFile, .patRunJson, .summaryJson]
      outcome := .returned false none }
  | .real .executable (.completed primary fallback outFile) =>
    let cls := classifyRun (fallback.getD primary) outFile
    { writes := attemptArtifacts fallback
        ++ [.stdoutFile, .stderrFile, .patRunJson, .summaryJson]
      outcome := .returned cls.ok cls.probability }

/-! ## coach/service.py — strategy search: truncation and candidate loop -/

/-- One perturbation candidate as `_generate_candidates` emits it. -/
structure CandidateDelta where
  serve_short_delta : ℚ
  attack_delta : ℚ
  l1 : ℚ
deriving DecidableEq

/-- The budget truncation of `strategy`
(`candidates = candidates[: max(1, budget)]`). -/
def truncateCandidates (cands : List CandidateDelta) (budget : ℤ) : List CandidateDelta :=
  cands.take (max 1 budget).toNat

/-- The candidate-evaluation loop of `strategy`: each candidate runs through
render + PAT + parse (abstracted as the oracle `evalProb`, `none` when the
execution fails to yield a probability); a `none` candidate is skipped with
`continue`; after the loop, an empty accumulator raises the operational
`RuntimeError`, otherwise the surviving `(candidate, probability)` pairs are
returned for ranking. -/
def strategyRankCandidates (evalProb : CandidateDelta → Option ℚ)
    (cands : List CandidateDelta) : Except String (List (CandidateDelta × ℚ)) :=
  let ranked := cands.filterMap fun c => (evalProb c).map fun p => (c, p)
  if ranked.isEmpty then
    .error "No strategy candidates yielded parseable probabilities."
  else .ok ranked

/-! ## coach/data/adapters/local_csv.py — estimator smoothing arithmetic -/

/-- `LocalCSVAdapter._smooth_probability` with the adapter default
`laplace_alpha = 2.0`. -/
def smoothProbability (wins trials : ℚ) (alpha : ℚ := 2) : ℚ :=
  (wins + alpha) / (trials + 2 * alpha)

/-- The aggregates `get_player_params` computes from the window before any
smoothing: summed rally counts, the weighted-mean raw rates, and the match
tallies. -/
structure PlayerAggregates where
  serveWins : ℚ
  serveTrials : ℚ
  receiveWins : ℚ
  receiveTrials : ℚ
  shortRaw : ℚ
  attackRaw : ℚ
  safeRaw : ℚ
  wins : ℚ
  numMatches : ℚ
deriving DecidableEq

/-- The smoothed per-player output of `get_player_params`. -/
structure PlayerStatsOut where
  win_rate : ℚ
  base_srv_win : ℚ
  base_rcv_win : ℚ
  short : ℚ
  flick : ℚ
  attack : ℚ
  neutral : ℚ
  safe : ℚ
deriving DecidableEq

/-- The smoothing stage of `LocalCSVAdapter.get_player_params`: Laplace
smoothing of the base rates, the Dirichlet-style pull of the serve-mix short
rate (`alpha_mix = 0.02`), and the clamp-then-renormalize of the rally-style
triple with neutral as remainder. -/
def getPlayerParamsCore (agg : PlayerAggregates) : PlayerStatsOut :=
  let base_srv := smoothProbability agg.serveWins agg.serveTrials
  let base_rcv := smoothProbability agg.receiveWins agg.receiveTrials
  let alphaMix : ℚ := 0.02
  let short := (agg.shortRaw + alphaMix) / (1 + 2 * alphaMix)
  let attack0 := max 0.05 (min 0.9 agg.attackRaw)
  let safe0 := max 0.05 (min 0.9 agg.safeRaw)
  let neutral0 := max 0.05 (1 - attack0 - safe0)
  let total := attack0 + neutral0 + safe0
  { win_rate := smoothProbability agg.wins agg.numMatches 1.5
    base_srv_win := base_srv
    base_rcv_win := base_rcv
    short := short
    flick := 1 - short
    attack := attack0 / total
    neutral := neutral0 / total
    safe := safe0 / total }

/-- The head-to-head record `get_head_to_head` returns on a non-empty
head-to-head window. -/
structure HeadToHeadOut where
  numMatches : ℚ
  a_win_rate : ℚ
  a_srv_win : ℚ
  a_rcv_win : ℚ
deriving DecidableEq

/-- The smoothing stage of `LocalCSVAdapter.get_head_to_head` (non-empty
case): the match win-rate at `alpha=1.0` and the serve/receive rates used by
the blending at `alpha=1.5`. -/
def getHeadToHeadCore (nMatches wins srvWins srvTrials rcvWins rcvTrials : ℚ) :
    HeadToHeadOut :=
  { numMatches := nMatches
    a_win_rate := smoothProbability wins nMatches 1.0
    a_srv_win := smoothProbability srvWins srvTrials 1.5
    a_rcv_win := smoothProbability rcvWins rcvTrials 1.5 }

/-! ## Concrete instances used by counterexamples and witnesses -/

/-- A well-formed serve mix shared by the concrete matchups below. -/
def demoServeMix : ServeMix := ⟨0.6, 0.4⟩

/-- A player with the fully attack-weighted rally style `(1, 0, 0)`: every
component is within its field bounds and the triple sums to exactly 1, so
pydantic accepts it. -/
def degeneratePlayer : PlayerParams :=
  { player_id := "p1"
    name := "Degenerate A"
    base_srv_win := 0.55
    base_rcv_win := 0.5
    serve_mix := demoServeMix
    rally_style := ⟨1, 0, 0⟩
    sample_matches := 10 }

/-- An ordinary opponent. -/
def demoOpponent : PlayerParams :=
  { player_id := "p2"
    name := "Opponent B"
    base_srv_win := 0.5
    base_rcv_win := 0.45
    serve_mix := ⟨0.5, 0.5⟩
    rally_style := ⟨0.3, 0.4, 0.3⟩
    sample_matches := 12 }

/-- A valid matchup whose player A has rally style `(1, 0, 0)`. -/
def degenerateMatchup : MatchupParams :=
  { player_a := degeneratePlayer
    player_b := demoOpponent
    weights := ⟨0.1, 0.1, 0.1⟩
    target := 21
    cap := 30
    best_of := 3 }

/-- An ordinary valid matchup (player A rally style `(0.4, 0.3, 0.3)`). -/
def demoMatchup : MatchupParams :=
  { player_a :=
      { player_id := "p1"
        name := "Player A"
        base_srv_win := 0.55
        base_rcv_win := 0.5
        serve_mix := demoServeMix
        rally_style := ⟨0.4, 0.3, 0.3⟩
        sample_matches := 10 }
    player_b := demoOpponent
    weights := ⟨0.1, 0.1, 0.1⟩
    target := 21
    cap := 30
    best_of := 3 }

/-- A successful engine attempt whose stdout nevertheless holds a model
error signal line. -/
def signalOutcome : ExecOutcome :=
  { returncode := 0
    stdout := "Runtime exception occurred: model loading aborted"
    stderr := "" }

/-- A parseable output file content for the same run. -/
def signalOutText : String := "Probability = 0.5"

/-- A singleton candidate list used to witness the budget-floor theorem. -/
def demoCandidates : List CandidateDelta := [⟨0.05, 0, 0.1⟩]

/-! ## Helper lemmas -/

theorem le_clamp (x low high : ℚ) : low ≤ clamp x low high :=
  le_max_left _ _

theorem clamp_le (x low high : ℚ) (h : low ≤ high) : clamp x low high ≤ high :=
  max_le h (min_le_left _ _)

theorem clamp_eq_self (x low high : ℚ) (h1 : low ≤ x) (h2 : x ≤ high) :
    clamp x low high = x := by
  unfold clamp
  rw [min_eq_right h2, max_eq_right h1]

theorem clamp_default_bounds (x : ℚ) :
    0 < clamp x ∧ clamp x < 1 ∧ 0.01 ≤ clamp x ∧ clamp x ≤ 0.99 := by
  have h1 : (0.01 : ℚ) ≤ clamp x := le_clamp x 0.01 0.99
  have h2 : clamp x ≤ 0.99 := clamp_le x 0.01 0.99 (by norm_num)
  refine ⟨by linarith [h1], by linarith [h2], h1, h2⟩

/-! ## Claims -/

/-- C5: for every `MatchupParams`, `effective_probabilities()` returns four
values each strictly inside `(0, 1)` (in fact clamped to `[0.01, 0.99]`),
and the opponent values are the exact complements:
`pB_srv_win = 1 - pA_rcv_win` and `pB_rcv_win = 1 - pA_srv_win`. -/
theorem effectiveProbabilities_interior_complement (m : MatchupParams) :
    (0 < m.effectiveProbabilities.pA_srv_win ∧ m.effectiveProbabilities.pA_srv_win < 1 ∧
      0.01 ≤ m.effectiveProbabilities.pA_srv_win ∧ m.effectiveProbabilities.pA_srv_win ≤ 0.99) ∧
    (0 < m.effectiveProbabilities.pA_rcv_win ∧ m.effectiveProbabilities.pA_rcv_win < 1 ∧
      0.01 ≤ m.effectiveProbabilities.pA_rcv_win ∧ m.effectiveProbabilities.pA_rcv_win ≤ 0.99) ∧
    (0 < m.effectiveProbabilities.pB_srv_win ∧ m.effectiveProbabilities.pB_srv_win < 1 ∧
      0.01 ≤ m.effectiveProbabilities.pB_srv_win ∧ m.effectiveProbabilities.pB_srv_win ≤ 0.99) ∧
    (0 < m.effectiveProbabilities.pB_rcv_win ∧ m.effectiveProbabilities.pB_rcv_win < 1 ∧
      0.01 ≤ m.effectiveProbabilities.pB_rcv_win ∧ m.effectiveProbabilities.pB_rcv_win ≤ 0.99) ∧
    m.effectiveProbabilities.pB_srv_win = 1 - m.effectiveProbabilities.pA_rcv_win ∧
    m.effectiveProbabilities.pB_rcv_win = 1 - m.effectiveProbabilities.pA_srv_win := by
  have hsrv := clamp_default_bounds (m.player_a.base_srv_win + m.styleDelta)
  have hrcv := clamp_default_bounds (m.player_a.base_rcv_win + m.styleDelta)
  have hBsrv := clamp_default_bounds (1 - clamp (m.player_a.base_rcv_win + m.styleDelta))
  have hBrcv := clamp_default_bounds (1 - clamp (m.player_a.base_srv_win + m.styleDelta))
  have ersv : m.effectiveProbabilities.pB_srv_win
      = 1 - clamp (m.player_a.base_rcv_win + m.styleDelta) :=
    clamp_eq_self _ _ _ (by linarith [hrcv.2.2.2]) (by linarith [hrcv.2.2.1])
  have ercv : m.effectiveProbabilities.pB_rcv_win
      = 1 - clamp (m.player_a.base_srv_win + m.styleDelta) :=
    clamp_eq_self _ _ _ (by linarith [hsrv.2.2.2]) (by linarith [hsrv.2.2.1])
  refine ⟨hsrv, hrcv, ?_, ?_, ersv, ercv⟩
  · simpa [MatchupParams.effectiveProbabilities] using hBsrv
  · simpa [MatchupParams.effectiveProbabilities] using hBrcv

/-- C9: the template context emits the serve and receive win probabilities
as paired integer weights with `pA_srv_win_w + pA_srv_lose_w = 10000` and
`pA_rcv_win_w + pA_rcv_lose_w = 10000` exactly. -/
theorem toTemplateContext_paired_weights (m : MatchupParams) :
    m.toTemplateContext.pA_srv_win_w + m.toTemplateContext.pA_srv_lose_w = 10000 ∧
    m.toTemplateContext.pA_rcv_win_w + m.toTemplateContext.pA_rcv_lose_w = 10000 := by
  constructor <;> simp [MatchupParams.toTemplateContext]

/-- C10: the sorted candidate list is truncated to `max(1, budget)` entries
before evaluation, so whenever any candidate survived the L1 filter the
evaluated set keeps at least one entry for every budget (in particular for
budgets of zero or less), and never more than `max(1, budget)`. -/
theorem truncateCandidates_budget_floor (cands : List CandidateDelta) (budget : ℤ)
    (h : cands ≠ []) :
    1 ≤ (truncateCandidates cands budget).length ∧
    (truncateCandidates cands budget).length ≤ (max 1 budget).toNat := by
  have hl : 0 < cands.length := List.length_pos.mpr h
  have hm : (1 : ℤ) ≤ max 1 budget := le_max_left _ _
  unfold truncateCandidates
  rw [List.length_take]
  omega

/-- Witness for the budget-floor theorem at a negative budget. -/
theorem truncateCandidates_budget_floor_witness :
    1 ≤ (truncateCandidates demoCandidates (-5)).length ∧
    (truncateCandidates demoCandidates (-5)).length ≤ (max 1 (-5 : ℤ)).toNat :=
  truncateCandidates_budget_floor demoCandidates (-5) (by decide)

/-- C7: the strategy candidate loop drops failing candidates silently — if
any candidate yields a probability the loop returns the non-empty list of
surviving candidates (in order, exactly those whose evaluation produced a
probability) — and it raises the operational error exactly when no
candidate yields a usable probability. -/
theorem strategyRankCandidates_error_iff (evalProb : CandidateDelta → Option ℚ)
    (cands : List CandidateDelta) :
    ((∃ c ∈ cands, (evalProb c).isSome = true) →
      strategyRankCandidates evalProb cands
        = .ok (cands.filterMap fun c => (evalProb c).map fun p => (c, p)) ∧
      cands.filterMap (fun c => (evalProb c).map fun p => (c, p)) ≠ []) ∧
    ((∀ c ∈ cands, evalProb c = none) →
      ∃ msg, strategyRankCandidates evalProb cands = .error msg) := by
  constructor
  · rintro ⟨c, hc, hsome⟩
    have hne : cands.filterMap (fun c => (evalProb c).map fun p => (c, p)) ≠ [] := by
      intro hnil
      rw [List.filterMap_eq_nil_iff] at hnil
      have := hnil c hc
      rw [Option.map_eq_none'] at this
      simp [this] at hsome
    refine ⟨?_, hne⟩
    unfold strategyRankCandidates
    simp [hne]
  · intro hall
    have hnil : cands.filterMap (fun c => (evalProb c).map fun p => (c, p)) = [] := by
      rw [List.filterMap_eq_nil_iff]
      intro c hc
      rw [Option.map_eq_none']
      exact hall c hc
    refine ⟨"No strategy candidates yielded parseable probabilities.", ?_⟩
    unfold strategyRankCandidates
    simp [hnil]

/-- C8: the smoothing constants of the estimator — base serve/receive rates are
Laplace ratios `(wins + a) / (trials + 2a)` at the default `a = 2.0`, the
head-to-head serve/receive rates used in blending use `a = 1.5`, the
head-to-head match win-rate uses `a = 1.0`, the serve-mix short rate is
pulled as `(x + 0.02) / (1 + 0.04)`, and rally attack/safe are clamped to
`[0.05, 0.9]` and renormalized against the neutral remainder (floor 0.05),
the renormalized triple summing to 1. -/
theorem estimator_smoothing_constants (agg : PlayerAggregates)
    (nM wins sw st rw rt : ℚ) :
    (getPlayerParamsCore agg).base_srv_win = (agg.serveWins + 2) / (agg.serveTrials + 2 * 2) ∧
    (getPlayerParamsCore agg).base_rcv_win = (agg.receiveWins + 2) / (agg.receiveTrials + 2 * 2) ∧
    (getPlayerParamsCore agg).short = (agg.shortRaw + 0.02) / (1 + 0.04) ∧
    (getPlayerParamsCore agg).attack =
      max 0.05 (min 0.9 agg.attackRaw)
        / (max 0.05 (min 0.9 agg.attackRaw)
            + max 0.05 (1 - max 0.05 (min 0.9 agg.attackRaw) - max 0.05 (min 0.9 agg.safeRaw))
            + max 0.05 (min 0.9 agg.safeRaw)) ∧
    (getPlayerParamsCore agg).safe =
      max 0.05 (min 0.9 agg.safeRaw)
        / (max 0.05 (min 0.9 agg.attackRaw)
            + max 0.05 (1 - max 0.05 (min 0.9 agg.attackRaw) - max 0.05 (min 0.9 agg.safeRaw))
            + max 0.05 (min 0.9 agg.safeRaw)) ∧
    (getPlayerParamsCore agg).attack + (getPlayerParamsCore agg).neutral
      + (getPlayerParamsCore agg).safe = 1 ∧
    (getHeadToHeadCore nM wins sw st rw rt).a_win_rate = (wins + 1) / (nM + 2 * 1) ∧
    (getHeadToHeadCore nM wins sw st rw rt).a_srv_win = (sw + 1.5) / (st + 2 * 1.5) ∧
    (getHeadToHeadCore nM wins sw st rw rt).a_rcv_win = (rw + 1.5) / (rt + 2 * 1.5) := by
  have hA : (0.05 : ℚ) ≤ max 0.05 (min 0.9 agg.attackRaw) := le_max_left _ _
  have hS : (0.05 : ℚ) ≤ max 0.05 (min 0.9 agg.safeRaw) := le_max_left _ _
  have hN : (0.05 : ℚ) ≤ max 0.05 (1 - max 0.05 (min 0.9 agg.attackRaw)
      - max 0.05 (min 0.9 agg.safeRaw)) := le_max_left _ _
  have htot : max 0.05 (min 0.9 agg.attackRaw)
      + max 0.05 (1 - max 0.05 (min 0.9 agg.attackRaw) - max 0.05 (min 0.9 agg.safeRaw))
      + max 0.05 (min 0.9 agg.safeRaw) ≠ 0 := by positivity
  refine ⟨rfl, rfl, by norm_num [getPlayerParamsCore], rfl, rfl, ?_, by norm_num
    [getHeadToHeadCore, smoothProbability], rfl, by norm_num [getHeadToHeadCore, smoothProbability]⟩
  show max 0.05 (min 0.9 agg.attackRaw) / _ + max 0.05 (1 - _ - _) / _ + max 0.05 (min 0.9 agg.safeRaw) / _ = 1
  field_simp

theorem logistic_monotone {x y : ℝ} (h : x ≤ y) : logistic x ≤ logistic y := by
  unfold logistic
  have h1 : Real.exp (-y) ≤ Real.exp (-x) := Real.exp_le_exp.mpr (neg_le_neg h)
  have h2 : (0 : ℝ) < 1 + Real.exp (-y) := by positivity
  exact one_div_le_one_div_of_le h2 (by linarith)

/-- C6: `mock_probability` is a deterministic function of its parameter
record (equal rendered parameters give equal probabilities), its result lies
in `[0.01, 0.99]`, and it is non-decreasing in `pA_srv_win` with every other
input held fixed. -/
theorem mockProbability_deterministic_bounded_monotone (p q : MockParams) :
    (p = q → mockProbability p = mockProbability q) ∧
    0.01 ≤ mockProbability p ∧ mockProbability p ≤ 0.99 ∧
    (q = { p with pA_srv_win := q.pA_srv_win } → p.pA_srv_win ≤ q.pA_srv_win →
      mockProbability p ≤ mockProbability q) := by
  refine ⟨fun h => by rw [h], le_max_left _ _, max_le (by norm_num) (min_le_left _ _), ?_⟩
  intro hq hle
  rw [hq]
  unfold mockProbability
  apply max_le_max le_rfl
  apply min_le_min le_rfl
  apply logistic_monotone
  simp only
  linarith

/-- C4: `parse_probability` returns the last in-range value found after a
case-insensitive probability-context marker (marker line first, then the
40-character lookahead): on `"Probability = 0.123"` it returns `0.123`; with
two contextual matches on separate lines the later one wins; and on text
where no contextual match yields an in-range number it fails with an error
holding the compacted excerpt of the input. -/
theorem parseProbability_last_contextual_value :
    parseProbability "Probability = 0.123" = .ok (123 / 1000) ∧
    parseProbability
        "The Assertion is valid with probability 0.111\nVerification completed with prob 0.789"
      = .ok (789 / 1000) ∧
    (∃ msg, parseProbability "Probability = 42 iterations remaining" = .error msg ∧
      listContains (pyExcerpt "Probability = 42 iterations remaining").data msg.data = true) ∧
    (∀ text v, parseProbability text = .ok v →
      (collectProbabilityValues text.data).getLast? = some v) := by
  refine ⟨by with_unfolding_all rfl, by with_unfolding_all rfl,
    ⟨"Could not parse probability from PAT output. Excerpt: Probability = 42 iterations remaining",
      by with_unfolding_all rfl, by with_unfolding_all rfl⟩, ?_⟩
  intro text v h
  unfold parseProbability at h
  cases hl : (collectProbabilityValues text.data).getLast? with
  | none => rw [hl] at h; exact absurd h (by simp)
  | some w => rw [hl] at h; cases h; rfl

/-- C3 counterexample: a valid matchup whose player A has the fully
attack-weighted rally style `(1, 0, 0)`.  For the in-grid delta pair
`(0.05, 0.05)`, `with_adjustments` clamps attack to 0.98 and rescales the
zero remainder against the `1e-6` floor, so the produced triple sums to
0.98 and pydantic validation rejects it: the call raises instead of
returning an instance whose mixes sum to 1 within `1e-6`. -/
theorem withAdjustments_degenerate_counterexample :
    degenerateMatchup.validated ∧
    degenerateMatchup.withAdjustments 0.05 0.05 = none := by
  constructor
  · with_unfolding_all decide
  · with_unfolding_all rfl

/-- C3 (amended): for every valid `MatchupParams` whose player A rally
style keeps a remainder `neutral + safe ≥ 1e-6`, and every delta pair,
`with_adjustments` succeeds and both simplex invariants hold in the result —
the new serve mix and the new rally style each sum to exactly 1 (hence
within `1e-6`).  The `1e-6` remainder hypothesis is forced by the
counterexample above. -/
theorem withAdjustments_preserves_simplexes (m : MatchupParams) (ds da : ℚ)
    (hv : m.validated)
    (hns : 1e-6 ≤ m.player_a.rally_style.neutral + m.player_a.rally_style.safe) :
    ∃ m', m.withAdjustments ds da = some m' ∧
      m'.player_a.serve_mix.short + m'.player_a.serve_mix.flick = 1 ∧
      m'.player_a.rally_style.attack + m'.player_a.rally_style.neutral
        + m'.player_a.rally_style.safe = 1 := by
  obtain ⟨hpa, -⟩ := hv
  obtain ⟨-, -, -, -, -, -, -, hrs, -⟩ := hpa
  obtain ⟨-, -, h0n, -, h0s, -, -⟩ := hrs
  set short := clamp (m.player_a.serve_mix.short + ds) 0.01 0.99 with hshortdef
  set attack := clamp (m.player_a.rally_style.attack + da) 0.01 0.98 with hattackdef
  have hs1 : (0.01 : ℚ) ≤ short := le_clamp _ _ _
  have hs2 : short ≤ 0.99 := clamp_le _ _ _ (by norm_num)
  have ha1 : (0.01 : ℚ) ≤ attack := le_clamp _ _ _
  have ha2 : attack ≤ 0.98 := clamp_le _ _ _ (by norm_num)
  have hnspos : (0 : ℚ) < m.player_a.rally_style.neutral + m.player_a.rally_style.safe :=
    lt_of_lt_of_le (by norm_num) hns
  have hrem : max (m.player_a.rally_style.neutral + m.player_a.rally_style.safe) 1e-6
      = m.player_a.rally_style.neutral + m.player_a.rally_style.safe := max_eq_left hns
  have hsvalid : ServeMix.validated ⟨short, 1 - short⟩ := by
    dsimp only [ServeMix.validated]
    refine ⟨by linarith, by linarith, by linarith, by linarith, ?_⟩
    rw [show short + (1 - short) - 1 = 0 by ring, abs_zero]
    norm_num
  have hserve : mkServeMix short (1 - short) = some ⟨short, 1 - short⟩ := by
    unfold mkServeMix
    rw [if_pos hsvalid]
  set neutral := m.player_a.rally_style.neutral
      / (m.player_a.rally_style.neutral + m.player_a.rally_style.safe) * (1 - attack)
    with hneutraldef
  set safe := m.player_a.rally_style.safe
      / (m.player_a.rally_style.neutral + m.player_a.rally_style.safe) * (1 - attack)
    with hsafedef
  have hfrac_n : (0 : ℚ) ≤ m.player_a.rally_style.neutral
      / (m.player_a.rally_style.neutral + m.player_a.rally_style.safe) :=
    div_nonneg h0n hnspos.le
  have hfrac_s : (0 : ℚ) ≤ m.player_a.rally_style.safe
      / (m.player_a.rally_style.neutral + m.player_a.rally_style.safe) :=
    div_nonneg h0s hnspos.le
  have hfrac_n1 : m.player_a.rally_style.neutral
      / (m.player_a.rally_style.neutral + m.player_a.rally_style.safe) ≤ 1 :=
    (div_le_one hnspos).mpr (by linarith)
  have hfrac_s1 : m.player_a.rally_style.safe
      / (m.player_a.rally_style.neutral + m.player_a.rally_style.safe) ≤ 1 :=
    (div_le_one hnspos).mpr (by linarith)
  have hsum : attack + neutral + safe = 1 := by
    rw [hneutraldef, hsafedef]
    field_simp
    ring
  have hrvalid : RallyStyleMix.validated ⟨attack, neutral, safe⟩ := by
    dsimp only [RallyStyleMix.validated]
    refine ⟨by linarith, by linarith, ?_, ?_, ?_, ?_, ?_⟩
    · exact mul_nonneg hfrac_n (by linarith)
    · calc neutral ≤ 1 * (1 - attack) := by
            rw [hneutraldef]
            exact mul_le_mul_of_nonneg_right hfrac_n1 (by linarith)
        _ ≤ 1 := by linarith
    · exact mul_nonneg hfrac_s (by linarith)
    · calc safe ≤ 1 * (1 - attack) := by
            rw [hsafedef]
            exact mul_le_mul_of_nonneg_right hfrac_s1 (by linarith)
        _ ≤ 1 := by linarith
    · rw [show attack + neutral + safe - 1 = 0 by rw [hsum]; ring, abs_zero]
      norm_num
  have hrally : mkRallyStyleMix attack neutral safe = some ⟨attack, neutral, safe⟩ := by
    unfold mkRallyStyleMix
    rw [if_pos hrvalid]
  refine ⟨{ m with player_a := { m.player_a with
      serve_mix := ⟨short, 1 - short⟩, rally_style := ⟨attack, neutral, safe⟩ } }, ?_, by ring, hsum⟩
  unfold MatchupParams.withAdjustments
  dsimp only
  rw [← hshortdef, hserve]
  rw [Option.some_bind]
  rw [← hattackdef, hrem, ← hneutraldef, ← hsafedef, hrally]
  rfl

/-- Witness: the amended adjustment theorem applied to a concrete valid
matchup with rally remainder 0.6 and the grid delta pair `(0.05, 0.05)`. -/
theorem withAdjustments_preserves_simplexes_witness :
    ∃ m', demoMatchup.withAdjustments 0.05 0.05 = some m' ∧
      m'.player_a.serve_mix.short + m'.player_a.serve_mix.flick = 1 ∧
      m'.player_a.rally_style.attack + m'.player_a.rally_style.neutral
        + m'.player_a.rally_style.safe = 1 :=
  withAdjustments_preserves_simplexes demoMatchup 0.05 0.05
    (by with_unfolding_all decide) (by norm_num [demoMatchup])

/-- C1 counterexample: an execution whose last attempt exits 0, whose
output file exists, is non-empty, and parses to a probability, yet the run
is classified as failed (`ok = false`) because stdout holds a model-error
signal line — the claimed four conditions are satisfied but are not
sufficient for success. -/
theorem classifyRun_signal_counterexample :
    (classifyRun signalOutcome (some signalOutText)).ok = false ∧
    signalOutcome.returncode = 0 ∧
    (some signalOutText).isSome = true ∧
    stripWS signalOutText ≠ "" ∧
    (parseProbability signalOutText).isOk = true := by
  refine ⟨by with_unfolding_all rfl, rfl, rfl, by with_unfolding_all decide,
    by with_unfolding_all rfl⟩

/-- Helper: the success flag of the classification block, as an iff. -/
theorem classifyRun_ok_iff (selected : ExecOutcome) (outFile : Option String) :
    (classifyRun selected outFile).ok = true ↔
      selected.returncode = 0 ∧
        (∃ text, outFile = some text ∧ stripWS text ≠ "" ∧
          (parseProbability text).isOk = true) ∧
        extractPatModelError selected.stdout selected.stderr = none := by
  cases outFile with
  | none =>
    simp [classifyRun]
  | some text =>
    by_cases hstrip : stripWS text = ""
    · simp [classifyRun, hstrip]
    · cases hp : parseProbability text with
      | ok v => simp [classifyRun, hstrip, hp, Option.isNone_iff_eq_none, and_assoc, Except.isOk, Except.toBool]
      | error msg => simp [classifyRun, hstrip, hp, Except.isOk, Except.toBool]

/-- C2 counterexample: a real-mode invocation whose console path does not
exist is a failing invocation, and it raises `RuntimeError` without having
written any artifact — no raw stdout, no raw stderr, no invocation record,
no summary record reaches the run directory first. -/
theorem runPatModel_missing_console_counterexample :
    (runPatModel (.real .missing .startFailure)).outcome.isRaisedB = true ∧
    (runPatModel (.real .missing .startFailure)).writes = [] :=
  ⟨rfl, rfl⟩

/-- C2 (amended): `run_pat` raises exactly on the configuration /
engine-unavailable inputs (invalid mode, unset path, missing path,
directory without a console binary), and those raises write no artifact at
all; every invocation that proceeds past those checks — mock runs, started
executions, start failures, and timeouts — returns a payload after writing
the raw stdout, raw stderr, structured invocation record and summary
record. -/
theorem runPatModel_artifact_discipline (input : RunPatInput) :
    (runPatModel input).outcome.isRaisedB = input.isEngineConfigError ∧
    ((runPatModel input).outcome.isRaisedB = true → (runPatModel input).writes = []) ∧
    ((runPatModel input).outcome.isRaisedB = false →
      Artifact.stdoutFile ∈ (runPatModel input).writes ∧
      Artifact.stderrFile ∈ (runPatModel input).writes ∧
      Artifact.patRunJson ∈ (runPatModel input).writes ∧
      Artifact.summaryJson ∈ (runPatModel input).writes) := by
  cases input with
  | mock p =>
    exact ⟨rfl, fun h => by simp [runPatModel, RunPatOutcome.isRaisedB] at h,
      fun _ => by simp [runPatModel]⟩
  | invalidMode =>
    exact ⟨rfl, fun _ => rfl, fun h => by simp [runPatModel, RunPatOutcome.isRaisedB] at h⟩
  | real path exec =>
    cases path with
    | notConfigured =>
      exact ⟨rfl, fun _ => rfl, fun h => by simp [runPatModel, RunPatOutcome.isRaisedB] at h⟩
    | missing =>
      exact ⟨rfl, fun _ => rfl, fun h => by simp [runPatModel, RunPatOutcome.isRaisedB] at h⟩
    | directory =>
      exact ⟨rfl, fun _ => rfl, fun h => by simp [runPatModel, RunPatOutcome.isRaisedB] at h⟩
    | executable =>
      cases exec with
      | startFailure =>
        exact ⟨rfl, fun h => by simp [runPatModel, RunPatOutcome.isRaisedB] at h,
          fun _ => by simp [runPatModel]⟩
      | timedOut a b =>
        exact ⟨rfl, fun h => by simp [runPatModel, RunPatOutcome.isRaisedB] at h,
          fun _ => by simp [runPatModel]⟩
      | completed primary fallback outFile =>
        exact ⟨rfl, fun h => by simp [runPatModel, RunPatOutcome.isRaisedB] at h,
          fun _ => by simp [runPatModel, attemptArtifacts]⟩

/-- C1 (amended): a real-mode `run_pat` invocation that reaches execution
returns the classification of the last attempt, and that classification
reports `ok = true` iff the last attempt exited 0, the output file exists
with non-blank content, a probability parses from it, and additionally no
model-error signal line is found in the stdout/stderr of the last attempt — the
fifth condition is forced by the counterexample above. -/
theorem runPat_executed_ok_iff (primary : ExecOutcome) (fallback : Option ExecOutcome)
    (outFile : Option String) :
    (runPatModel (.real .executable (.completed primary fallback outFile))).outcome
      = .returned (classifyRun (fallback.getD primary) outFile).ok
          (classifyRun (fallback.getD primary) outFile).probability ∧
    ((classifyRun (fallback.getD primary) outFile).ok = true ↔
      (fallback.getD primary).returncode = 0 ∧
        (∃ text, outFile = some text ∧ stripWS text ≠ "" ∧
          (parseProbability text).isOk = true) ∧
        extractPatModelError (fallback.getD primary).stdout
          (fallback.getD primary).stderr = none) :=
  ⟨rfl, classifyRun_ok_iff (fallback.getD primary) outFile⟩
